import Mathlib

/-!
A shallow embedding of the telemetry client of telemetry.confluence.js
(src/telemetryClient.ts together with the Telemetry record declared in
src/telemetry.ts).  JavaScript Date values are modelled as integer
milliseconds since the epoch, the authentication descriptor is abstracted
to a string, and the asynchronous methods are split at their await points
into explicit phase functions over explicit state, reflecting the
cooperative single-threaded execution model of the runtime.
-/

namespace TC

/-- The raw telemetry event: interface Telemetry of src/telemetry.ts.
Field names and order follow the source.  requestStartTime and
requestEndTime are Date values, modelled as Int milliseconds; the
authentication descriptor is abstracted to a String; the optional
noCheckAtlassianToken flag is an Option Bool, none meaning the key is
absent from the raw event. -/
structure Telemetry where
  libVersion : String
  libVersionHash : String
  methodName : String
  authentication : String
  baseRequestConfigUsed : Bool
  onResponseMiddlewareUsed : Bool
  onErrorMiddlewareUsed : Bool
  callbackUsed : Bool
  queryExists : Bool
  bodyExists : Bool
  headersExists : Bool
  requestStatusCode : Int
  requestStartTime : Int
  requestEndTime : Int
  noCheckAtlassianToken : Option Bool
  deriving DecidableEq

/-- Partial Telemetry, the result type of prepareTelemetry: each field is
present (some) or absent (none).  The default instance with every field
none models the empty object literal. -/
structure PartialTelemetry where
  libVersion : Option String := none
  libVersionHash : Option String := none
  methodName : Option String := none
  authentication : Option String := none
  baseRequestConfigUsed : Option Bool := none
  onResponseMiddlewareUsed : Option Bool := none
  onErrorMiddlewareUsed : Option Bool := none
  callbackUsed : Option Bool := none
  queryExists : Option Bool := none
  bodyExists : Option Bool := none
  headersExists : Option Bool := none
  requestStatusCode : Option Int := none
  requestStartTime : Option Int := none
  requestEndTime : Option Int := none
  noCheckAtlassianToken : Option Bool := none
  deriving DecidableEq

/-- Object.keys(p).length === 0 for a prepared telemetry object: every
field is absent. -/
def PartialTelemetry.isEmpty (p : PartialTelemetry) : Bool :=
  p.libVersion.isNone && p.libVersionHash.isNone && p.methodName.isNone &&
  p.authentication.isNone && p.baseRequestConfigUsed.isNone &&
  p.onResponseMiddlewareUsed.isNone && p.onErrorMiddlewareUsed.isNone &&
  p.callbackUsed.isNone && p.queryExists.isNone && p.bodyExists.isNone &&
  p.headersExists.isNone && p.requestStatusCode.isNone &&
  p.requestStartTime.isNone && p.requestEndTime.isNone &&
  p.noCheckAtlassianToken.isNone

/-- The raw event viewed as a partial record with every field present:
this is the value prepareTelemetry returns when config is the boolean
true (the source returns the rawTelemetry object itself).  The optional
noCheckAtlassianToken key is present exactly when present in the raw
event. -/
def Telemetry.toPartial (t : Telemetry) : PartialTelemetry where
  libVersion := some t.libVersion
  libVersionHash := some t.libVersionHash
  methodName := some t.methodName
  authentication := some t.authentication
  baseRequestConfigUsed := some t.baseRequestConfigUsed
  onResponseMiddlewareUsed := some t.onResponseMiddlewareUsed
  onErrorMiddlewareUsed := some t.onErrorMiddlewareUsed
  callbackUsed := some t.callbackUsed
  queryExists := some t.queryExists
  bodyExists := some t.bodyExists
  headersExists := some t.headersExists
  requestStatusCode := some t.requestStatusCode
  requestStartTime := some t.requestStartTime
  requestEndTime := some t.requestEndTime
  noCheckAtlassianToken := t.noCheckAtlassianToken

/-- The TelemetryConfig permission map (src/telemetryConfig.ts, consumed
in telemetryClient.ts): three independently optional boolean switches.
A switch that is none is absent from the map. -/
structure TelemetryConfig where
  allowedToPassAuthenticationType : Option Bool := none
  allowedToPassRequestStatusCode : Option Bool := none
  allowedToPassRequestTimings : Option Bool := none
  deriving DecidableEq

/-- Object.keys(config).length === 0 for the permission map: all three
switches absent.  (A key explicitly set to undefined would count as an
entry in JavaScript; the model identifies such a key with an absent
key, which is how optional fields are normally produced.) -/
def TelemetryConfig.isEmptyMap (c : TelemetryConfig) : Bool :=
  c.allowedToPassAuthenticationType.isNone &&
  c.allowedToPassRequestStatusCode.isNone &&
  c.allowedToPassRequestTimings.isNone

/-- The constructor argument of TelemetryClient: boolean | TelemetryConfig. -/
inductive ClientConfig where
  | bool (b : Bool)
  | map (c : TelemetryConfig)
  deriving DecidableEq

/-- prepareTelemetry (telemetryClient.ts lines 77 to 116).  Boolean true
returns the raw event whole, boolean false or an empty permission map
returns the empty object; otherwise each gated field is included when
its switch, defaulted to true via the nullish coalescing operator, is
true, and every ungated field is included unconditionally. -/
def prepareTelemetry (config : ClientConfig) (rawTelemetry : Telemetry) :
    PartialTelemetry :=
  match config with
  | .bool b => if b then rawTelemetry.toPartial else {}
  | .map c =>
    if c.isEmptyMap then {}
    else
      let authAllowed := c.allowedToPassAuthenticationType.getD true
      let statusAllowed := c.allowedToPassRequestStatusCode.getD true
      let timingsAllowed := c.allowedToPassRequestTimings.getD true
      { libVersion := some rawTelemetry.libVersion
        libVersionHash := some rawTelemetry.libVersionHash
        methodName := some rawTelemetry.methodName
        authentication :=
          if authAllowed then some rawTelemetry.authentication else none
        baseRequestConfigUsed := some rawTelemetry.baseRequestConfigUsed
        onResponseMiddlewareUsed := some rawTelemetry.onResponseMiddlewareUsed
        onErrorMiddlewareUsed := some rawTelemetry.onErrorMiddlewareUsed
        callbackUsed := some rawTelemetry.callbackUsed
        queryExists := some rawTelemetry.queryExists
        bodyExists := some rawTelemetry.bodyExists
        headersExists := some rawTelemetry.headersExists
        requestStatusCode :=
          if statusAllowed then some rawTelemetry.requestStatusCode else none
        requestStartTime :=
          if timingsAllowed then some rawTelemetry.requestStartTime else none
        requestEndTime :=
          if timingsAllowed then some rawTelemetry.requestEndTime else none
        noCheckAtlassianToken := rawTelemetry.noCheckAtlassianToken }

/-- Modelled from the spec: the client library version string injected
from build metadata (sensitiveInformation.json is not part of the core
and is absent from the sources; its concrete value does not influence
any behaviour modelled here). -/
def version : String := "client-version"

/-- Modelled from the spec: the client library version hash injected from
build metadata (sensitiveInformation.json, absent from the sources). -/
def hash : String := "client-version-hash"

/-- A queued record: the prepared fields plus the injected metadata
(TelemetryBody = Partial Telemetry and TelemetryMetadata). -/
structure TelemetryBody where
  fields : PartialTelemetry
  telemetryClientVersion : String
  telemetryClientVersionHash : String
  timeDifference : Option Int
  deriving DecidableEq

/-- The TelemetryBody built by sendTelemetry after skew resolution:
spread of the prepared fields plus version, hash and the timeDifference
value (none models null). -/
def mkTelemetryBody (prepared : PartialTelemetry) (timeDifference : Option Int) :
    TelemetryBody :=
  { fields := prepared
    telemetryClientVersion := version
    telemetryClientVersionHash := hash
    timeDifference := timeDifference }

/-- Per-instance mutable state of a TelemetryClient: the queue of bodies
awaiting upload and the pending debounce timer, recorded as its scheduled
fire time in milliseconds (none when no timer is outstanding). -/
structure ClientState where
  queue : List TelemetryBody
  debounce : Option Nat
  deriving DecidableEq

/-- The delay passed to setTimeout in setDebounce (telemetryClient.ts
lines 140 to 142): the literal 10, which setTimeout interprets as
milliseconds. -/
def debounceDelay : Nat := 10

/-- The synchronous prefix of sendTelemetry (telemetryClient.ts lines 34
to 44), up to the await of getTimeDifference: prepare the event, return
early when nothing survives redaction, otherwise clear any pending
debounce timer and arm a fresh one.  The second component is the
prepared record to be completed once skew resolution finishes, none when
the submission was dropped. -/
def sendTelemetryPhase1 (config : ClientConfig) (telemetry : Telemetry)
    (now : Nat) (s : ClientState) : ClientState × Option PartialTelemetry :=
  let preparedTelemetry := prepareTelemetry config telemetry
  if preparedTelemetry.isEmpty then (s, none)
  else ({ s with debounce := some (now + debounceDelay) }, some preparedTelemetry)

/-- The resumption of sendTelemetry after getTimeDifference resolves
(telemetryClient.ts lines 45 to 54): build the TelemetryBody and push it
onto the tail of the queue. -/
def sendTelemetryPhase2 (prepared : PartialTelemetry)
    (timeDifference : Option Int) (s : ClientState) : ClientState :=
  { s with queue := s.queue ++ [mkTelemetryBody prepared timeDifference] }

/-- The try body of sendTelemetry, run to completion with a given outcome
of the awaited getTimeDifference call: when the awaited promise rejects,
the exception propagates past the push (the record is never enqueued)
with the effects of phase 1, notably the armed timer, already in place. -/
def sendTelemetryRun (config : ClientConfig) (telemetry : Telemetry)
    (skew : Except String (Option Int)) (now : Nat) (s : ClientState) :
    ClientState × Except String Unit :=
  match sendTelemetryPhase1 config telemetry now s with
  | (s1, none) => (s1, Except.ok ())
  | (s1, some prepared) =>
    match skew with
    | Except.error e => (s1, Except.error e)
    | Except.ok timeDifference =>
      (sendTelemetryPhase2 prepared timeDifference s1, Except.ok ())

/-- The catch-all surrounding the bodies of sendTelemetry and sendBulk:
any exception is swallowed, the effects performed before the throw
persist. -/
def caught {α : Type} (x : α × Except String Unit) : α × Except String Unit :=
  (x.1, Except.ok ())

/-- sendTelemetry whole (telemetryClient.ts lines 34 to 58): the try body
wrapped in the catch that ignores every exception. -/
def sendTelemetry (config : ClientConfig) (telemetry : Telemetry)
    (skew : Except String (Option Int)) (now : Nat) (s : ClientState) :
    ClientState × Except String Unit :=
  caught (sendTelemetryRun config telemetry skew now s)

/-- The synchronous prefix of sendBulk (telemetryClient.ts lines 60 to
68): when the queue is non-empty, serialize the current queue as the
body of a single POST and issue it.  Returns the dispatched payload,
none when the queue was empty and no dispatch happened. -/
def sendBulkDispatch (s : ClientState) : Option (List TelemetryBody) :=
  if s.queue.isEmpty then none else some s.queue

/-- The code after a successful await of the fetch in sendBulk: the
statement queue.length = 0, clearing whatever the queue holds at that
moment. -/
def sendBulkComplete (s : ClientState) : ClientState :=
  { s with queue := [] }

/-- The try body of sendBulk run to completion with no interleaved
submission, with a given outcome of the awaited fetch: on resolution the
queue is cleared, on rejection the exception propagates before the clear
is reached. -/
def sendBulkRun (outcome : Except String Unit) (s : ClientState) :
    (ClientState × Option (List TelemetryBody)) × Except String Unit :=
  match sendBulkDispatch s with
  | none => ((s, none), Except.ok ())
  | some payload =>
    match outcome with
    | Except.ok _ => ((sendBulkComplete s, some payload), Except.ok ())
    | Except.error e => ((s, some payload), Except.error e)

/-- sendBulk whole (telemetryClient.ts lines 60 to 75): the try body
wrapped in the catch that ignores every exception. -/
def sendBulk (outcome : Except String Unit) (s : ClientState) :
    (ClientState × Option (List TelemetryBody)) × Except String Unit :=
  caught (sendBulkRun outcome s)

/-- The process-wide static state of the clock-skew resolver: the static
field timeDifference (none models undefined, some none models null,
some (some d) a number), whether the shared timeDifferenceRequest
promise exists, and a count of outbound requests issued to the time
endpoint. -/
structure SkewState where
  timeDifference : Option (Option Int)
  requestInFlight : Bool
  fetchCount : Nat
  deriving DecidableEq

/-- The state at process start: both static fields undefined, no request
issued. -/
def SkewState.init : SkewState :=
  { timeDifference := none, requestInFlight := false, fetchCount := 0 }

/-- What the synchronous prefix of getTimeDifference does for its caller:
return the cached value immediately, or suspend on the shared pending
request. -/
inductive SkewStartResult where
  | cached (value : Option Int)
  | awaiting
  deriving DecidableEq

/-- The synchronous prefix of getTimeDifference (telemetryClient.ts lines
118 to 129), up to the await of the shared promise: return the static
timeDifference when it is no longer undefined; otherwise install the
fetch-backed promise unless one is already in flight, issuing at most
one outbound request, and suspend on it. -/
def getTimeDifferenceStart (s : SkewState) : SkewStartResult × SkewState :=
  match s.timeDifference with
  | some v => (SkewStartResult.cached v, s)
  | none =>
    if s.requestInFlight then (SkewStartResult.awaiting, s)
    else (SkewStartResult.awaiting,
      { s with requestInFlight := true, fetchCount := s.fetchCount + 1 })

/-- The resumption of getTimeDifference after the shared promise settles
(telemetryClient.ts lines 130 to 137), restricted to the settled values
where the promise chain produced either the null of its catch (none) or
a valid Date (some milliseconds): now is the resuming caller reading of
new Date() in milliseconds, and the static timeDifference is assigned
Math.floor((serverTime - now) / 1000), or null without a server time,
that value being returned.  A valid-JSON response whose datetime field
does not parse settles the promise to an Invalid Date instead, a path
outside this restriction; getTimeDifferenceResumeFull below covers the
full settled-value domain including that case. -/
def getTimeDifferenceResume (serverTime : Option Int) (now : Int)
    (s : SkewState) : Option Int × SkewState :=
  let td : Option Int := serverTime.map (fun r => (r - now).fdiv 1000)
  (td, { s with timeDifference := some td })

/-- The possible settled values of the shared timeDifferenceRequest
promise, covering its full domain.  The catch settles it to null when
the fetch rejects, when the body fails JSON parsing or when the
destructuring of the parsed value throws; a valid JSON body whose
datetime field is missing or not a parseable date makes new Date
produce an Invalid Date object, which is truthy but whose getTime
method returns NaN; a parseable datetime produces a valid Date with an
integer millisecond value. -/
inductive ServerTime where
  | null
  | invalidDate
  | date (ms : Int)
  deriving DecidableEq

/-- A value the resumption can store in the static timeDifference field:
a genuine integer count of seconds, or the floating-point NaN that an
Invalid Date propagates through getTime, subtraction, division and
Math.floor, each of which maps NaN to NaN. -/
inductive SkewValue where
  | nan
  | int (d : Int)
  deriving DecidableEq

/-- The clock-skew resolver state over the full value domain: as
SkewState, but the cache may also hold the NaN produced by an Invalid
Date. -/
structure SkewStateFull where
  timeDifference : Option (Option SkewValue)
  requestInFlight : Bool
  fetchCount : Nat
  deriving DecidableEq

/-- The full-domain state at process start: both static fields
undefined, no request issued. -/
def SkewStateFull.init : SkewStateFull :=
  { timeDifference := none, requestInFlight := false, fetchCount := 0 }

/-- Result of the synchronous prefix of getTimeDifference over the full
value domain. -/
inductive SkewStartResultFull where
  | cached (value : Option SkewValue)
  | awaiting
  deriving DecidableEq

/-- The synchronous prefix of getTimeDifference (telemetryClient.ts
lines 118 to 129) over the full value domain: any cached value, NaN
included, differs from undefined under strict inequality and is
returned immediately; otherwise the shared request is installed unless
one is already in flight, issuing at most one outbound request. -/
def getTimeDifferenceStartFull (s : SkewStateFull) :
    SkewStartResultFull × SkewStateFull :=
  match s.timeDifference with
  | some v => (SkewStartResultFull.cached v, s)
  | none =>
    if s.requestInFlight then (SkewStartResultFull.awaiting, s)
    else (SkewStartResultFull.awaiting,
      { s with requestInFlight := true, fetchCount := s.fetchCount + 1 })

/-- The resumption of getTimeDifference (telemetryClient.ts lines 130 to
137) over the full settled-value domain.  The ternary tests truthiness:
null is falsy, but a Date object is truthy whether valid or not, so an
Invalid Date reaches the arithmetic, where getTime() returns NaN and
Math.floor((NaN - now) / 1000) is NaN — the value cached for a
valid-JSON malformed response is therefore NaN, not the null sentinel
of the catch. -/
def getTimeDifferenceResumeFull (serverTime : ServerTime) (now : Int)
    (s : SkewStateFull) : Option SkewValue × SkewStateFull :=
  let td : Option SkewValue :=
    match serverTime with
    | ServerTime.null => none
    | ServerTime.invalidDate => some SkewValue.nan
    | ServerTime.date ms => some (SkewValue.int ((ms - now).fdiv 1000))
  (td, { s with timeDifference := some td })

/-- n successive invocations of the synchronous prefix of
getTimeDifference, none of them resumed yet: the cooperative runtime
runs each prefix atomically, so n concurrent calls arriving before the
first response amount to this iteration. -/
def startCalls : Nat → SkewState → SkewState
  | 0, s => s
  | n + 1, s => startCalls n (getTimeDifferenceStart s).2

/-- The debounce schedule: given the setTimeout delay and the strictly
increasing times of the arming calls (clearTimeout followed by
setTimeout at each), the times at which an armed timer actually fires.
A timer armed at t fires at t + delay unless a later arming call occurs
strictly before that moment and cancels it. -/
def flushTimes (delay : Nat) : List Nat → List Nat
  | [] => []
  | [t] => [t + delay]
  | t :: t2 :: rest =>
    if t + delay < t2 then (t + delay) :: flushTimes delay (t2 :: rest)
    else flushTimes delay (t2 :: rest)

/-- A concrete raw event used to instantiate theorems on explicit
inputs. -/
def sampleTelemetry : Telemetry :=
  { libVersion := "1.0.0"
    libVersionHash := "abcdef"
    methodName := "getContent"
    authentication := "basic"
    baseRequestConfigUsed := true
    onResponseMiddlewareUsed := false
    onErrorMiddlewareUsed := false
    callbackUsed := false
    queryExists := true
    bodyExists := false
    headersExists := true
    requestStatusCode := 200
    requestStartTime := 1000
    requestEndTime := 2000
    noCheckAtlassianToken := none }

/-- A concrete queued body used to instantiate theorems on explicit
inputs. -/
def sampleBody : TelemetryBody :=
  mkTelemetryBody sampleTelemetry.toPartial (some 3)

/-- Iterating the synchronous prefix of getTimeDifference from a state
with the shared request already in flight and the cache still undefined
changes nothing: every further caller suspends on the same request. -/
theorem startCalls_stable (n c : Nat) :
    startCalls n
        { timeDifference := none, requestInFlight := true, fetchCount := c } =
      { timeDifference := none, requestInFlight := true, fetchCount := c } := by
  induction n with
  | zero => rfl
  | succ k ih =>
    show startCalls k
        (getTimeDifferenceStart
          { timeDifference := none, requestInFlight := true, fetchCount := c }).2 = _
    simpa [getTimeDifferenceStart] using ih

/-- C4: with config the boolean false or a permission map with zero
entries, prepareTelemetry returns the empty field set and sendTelemetry
returns without touching the client state, appending nothing to the
queue; with config the boolean true, prepareTelemetry returns every
field of the raw event unmodified. -/
theorem prepare_boolean_and_empty_config (raw : Telemetry)
    (skew : Except String (Option Int)) (now : Nat) (s : ClientState) :
    prepareTelemetry (ClientConfig.bool false) raw = {} ∧
    prepareTelemetry (ClientConfig.map {}) raw = {} ∧
    (sendTelemetryRun (ClientConfig.bool false) raw skew now s).1 = s ∧
    (sendTelemetryRun (ClientConfig.map {}) raw skew now s).1 = s ∧
    prepareTelemetry (ClientConfig.bool true) raw = raw.toPartial :=
  ⟨rfl, rfl, rfl, rfl, rfl⟩

/-- C5: a permission map disabling only the timing category yields a
prepared record with both timestamp fields absent and every other
original field present; a non-empty map disabling all three gated
categories still yields a non-empty prepared record, so the submission
is not dropped. -/
theorem prepare_timing_redaction_nonempty (raw : Telemetry)
    (cTimings cAll : TelemetryConfig)
    (h1 : cTimings.allowedToPassRequestTimings = some false)
    (h2 : cTimings.allowedToPassAuthenticationType.getD true = true)
    (h3 : cTimings.allowedToPassRequestStatusCode.getD true = true)
    (h4 : cAll.allowedToPassAuthenticationType = some false)
    (h5 : cAll.allowedToPassRequestStatusCode = some false)
    (h6 : cAll.allowedToPassRequestTimings = some false) :
    (prepareTelemetry (ClientConfig.map cTimings) raw).requestStartTime = none ∧
    (prepareTelemetry (ClientConfig.map cTimings) raw).requestEndTime = none ∧
    (prepareTelemetry (ClientConfig.map cTimings) raw).libVersion
      = some raw.libVersion ∧
    (prepareTelemetry (ClientConfig.map cTimings) raw).libVersionHash
      = some raw.libVersionHash ∧
    (prepareTelemetry (ClientConfig.map cTimings) raw).methodName
      = some raw.methodName ∧
    (prepareTelemetry (ClientConfig.map cTimings) raw).authentication
      = some raw.authentication ∧
    (prepareTelemetry (ClientConfig.map cTimings) raw).baseRequestConfigUsed
      = some raw.baseRequestConfigUsed ∧
    (prepareTelemetry (ClientConfig.map cTimings) raw).onResponseMiddlewareUsed
      = some raw.onResponseMiddlewareUsed ∧
    (prepareTelemetry (ClientConfig.map cTimings) raw).onErrorMiddlewareUsed
      = some raw.onErrorMiddlewareUsed ∧
    (prepareTelemetry (ClientConfig.map cTimings) raw).callbackUsed
      = some raw.callbackUsed ∧
    (prepareTelemetry (ClientConfig.map cTimings) raw).queryExists
      = some raw.queryExists ∧
    (prepareTelemetry (ClientConfig.map cTimings) raw).bodyExists
      = some raw.bodyExists ∧
    (prepareTelemetry (ClientConfig.map cTimings) raw).headersExists
      = some raw.headersExists ∧
    (prepareTelemetry (ClientConfig.map cTimings) raw).requestStatusCode
      = some raw.requestStatusCode ∧
    (prepareTelemetry (ClientConfig.map cTimings) raw).noCheckAtlassianToken
      = raw.noCheckAtlassianToken ∧
    (prepareTelemetry (ClientConfig.map cAll) raw).isEmpty = false := by
  refine ⟨?_, ?_, ?_, ?_, ?_, ?_, ?_, ?_, ?_, ?_, ?_, ?_, ?_, ?_, ?_, ?_⟩ <;>
    simp [prepareTelemetry, TelemetryConfig.isEmptyMap, PartialTelemetry.isEmpty,
      h1, h2, h3, h4, h5, h6]

/-- Witness for the C5 theorem at a concrete event and concrete
permission maps. -/
theorem prepare_timing_redaction_nonempty_witness :
    (prepareTelemetry
        (ClientConfig.map { allowedToPassRequestTimings := some false })
        sampleTelemetry).requestStartTime = none ∧
    (prepareTelemetry
        (ClientConfig.map { allowedToPassRequestTimings := some false })
        sampleTelemetry).requestEndTime = none ∧
    (prepareTelemetry
        (ClientConfig.map { allowedToPassRequestTimings := some false })
        sampleTelemetry).libVersion = some sampleTelemetry.libVersion ∧
    (prepareTelemetry
        (ClientConfig.map { allowedToPassRequestTimings := some false })
        sampleTelemetry).libVersionHash = some sampleTelemetry.libVersionHash ∧
    (prepareTelemetry
        (ClientConfig.map { allowedToPassRequestTimings := some false })
        sampleTelemetry).methodName = some sampleTelemetry.methodName ∧
    (prepareTelemetry
        (ClientConfig.map { allowedToPassRequestTimings := some false })
        sampleTelemetry).authentication = some sampleTelemetry.authentication ∧
    (prepareTelemetry
        (ClientConfig.map { allowedToPassRequestTimings := some false })
        sampleTelemetry).baseRequestConfigUsed
      = some sampleTelemetry.baseRequestConfigUsed ∧
    (prepareTelemetry
        (ClientConfig.map { allowedToPassRequestTimings := some false })
        sampleTelemetry).onResponseMiddlewareUsed
      = some sampleTelemetry.onResponseMiddlewareUsed ∧
    (prepareTelemetry
        (ClientConfig.map { allowedToPassRequestTimings := some false })
        sampleTelemetry).onErrorMiddlewareUsed
      = some sampleTelemetry.onErrorMiddlewareUsed ∧
    (prepareTelemetry
        (ClientConfig.map { allowedToPassRequestTimings := some false })
        sampleTelemetry).callbackUsed = some sampleTelemetry.callbackUsed ∧
    (prepareTelemetry
        (ClientConfig.map { allowedToPassRequestTimings := some false })
        sampleTelemetry).queryExists = some sampleTelemetry.queryExists ∧
    (prepareTelemetry
        (ClientConfig.map { allowedToPassRequestTimings := some false })
        sampleTelemetry).bodyExists = some sampleTelemetry.bodyExists ∧
    (prepareTelemetry
        (ClientConfig.map { allowedToPassRequestTimings := some false })
        sampleTelemetry).headersExists = some sampleTelemetry.headersExists ∧
    (prepareTelemetry
        (ClientConfig.map { allowedToPassRequestTimings := some false })
        sampleTelemetry).requestStatusCode
      = some sampleTelemetry.requestStatusCode ∧
    (prepareTelemetry
        (ClientConfig.map { allowedToPassRequestTimings := some false })
        sampleTelemetry).noCheckAtlassianToken
      = sampleTelemetry.noCheckAtlassianToken ∧
    (prepareTelemetry
        (ClientConfig.map
          { allowedToPassAuthenticationType := some false
            allowedToPassRequestStatusCode := some false
            allowedToPassRequestTimings := some false })
        sampleTelemetry).isEmpty = false :=
  prepare_timing_redaction_nonempty sampleTelemetry
    { allowedToPassRequestTimings := some false }
    { allowedToPassAuthenticationType := some false
      allowedToPassRequestStatusCode := some false
      allowedToPassRequestTimings := some false }
    rfl rfl rfl rfl rfl rfl

/-- C3 (the code against the claimed window): the debounce delay in the
code is the setTimeout literal 10, i.e. 10 milliseconds, not 10 seconds.
Arming calls at 0 ms, 4000 ms and 9000 ms therefore fire three flushes,
at 10 ms, 4010 ms and 9010 ms, whereas the claimed 10000 ms window would
fire exactly one flush at 19000 ms. -/
theorem debounce_window_is_ten_milliseconds :
    debounceDelay = 10 ∧
    flushTimes debounceDelay [0, 4000, 9000] = [10, 4010, 9010] ∧
    flushTimes 10000 [0, 4000, 9000] = [19000] :=
  ⟨rfl, by decide, by decide⟩

/-- C1 as stated fails: with queue [sampleBody] and a rejecting fetch,
sendBulk issues the single dispatch with the whole queue as payload, yet
the queue still holds the record afterwards — the clearing statement is
only reached when the fetch resolves. -/
theorem sendBulk_failure_keeps_queue :
    (sendBulk (Except.error ("network error"))
        { queue := [sampleBody], debounce := none }).1.2 = some [sampleBody] ∧
    (sendBulk (Except.error ("network error"))
        { queue := [sampleBody], debounce := none }).1.1.queue = [sampleBody] ∧
    [sampleBody] ≠ ([] : List TelemetryBody) :=
  ⟨rfl, rfl, by decide⟩

/-- C1 amended: flush with a non-empty queue issues exactly one dispatch
whose payload is the entire current queue; the queue is emptied when the
dispatch resolves and left unchanged when it rejects, the transport
error being swallowed rather than surfaced. -/
theorem sendBulk_dispatch_whole_queue (s : ClientState)
    (outcome : Except String Unit) (e : String) (h : s.queue ≠ []) :
    (sendBulk outcome s).1.2 = some s.queue ∧
    (sendBulk (Except.ok ()) s).1.1.queue = [] ∧
    (sendBulk (Except.error e) s).1.1.queue = s.queue ∧
    (sendBulk outcome s).2 = Except.ok () := by
  have hq : s.queue.isEmpty = false := by
    cases hqq : s.queue with
    | nil => exact absurd hqq h
    | cons a l => rfl
  have hd : sendBulkDispatch s = some s.queue := by
    simp [sendBulkDispatch, hq]
  refine ⟨?_, ?_, ?_, rfl⟩
  · cases outcome <;> simp [sendBulk, caught, sendBulkRun, hd, sendBulkComplete]
  · simp [sendBulk, caught, sendBulkRun, hd, sendBulkComplete]
  · simp [sendBulk, caught, sendBulkRun, hd]

/-- Witness for the C1 amended theorem at a concrete one-record queue. -/
theorem sendBulk_dispatch_whole_queue_witness :
    (sendBulk (Except.ok ()) { queue := [sampleBody], debounce := none }).1.2
      = some [sampleBody] ∧
    (sendBulk (Except.ok ())
        { queue := [sampleBody], debounce := none }).1.1.queue = [] ∧
    (sendBulk (Except.error ("timeout"))
        { queue := [sampleBody], debounce := none }).1.1.queue = [sampleBody] ∧
    (sendBulk (Except.ok ()) { queue := [sampleBody], debounce := none }).2
      = Except.ok () :=
  sendBulk_dispatch_whole_queue { queue := [sampleBody], debounce := none }
    (Except.ok ()) "timeout" (by decide)

/-- C2 as stated fails: on a fresh client, the synchronous part of a
surviving submission arms the debounce timer while the queue is still
empty — the record is not in the queue at the moment the timer is armed,
the push happening only after the awaited skew resolution. -/
theorem timer_armed_before_record_enqueued :
    (sendTelemetryPhase1 (ClientConfig.bool true) sampleTelemetry 0
        { queue := [], debounce := none }).1.debounce = some 10 ∧
    (sendTelemetryPhase1 (ClientConfig.bool true) sampleTelemetry 0
        { queue := [], debounce := none }).1.queue = [] ∧
    (sendTelemetryPhase1 (ClientConfig.bool true) sampleTelemetry 0
        { queue := [], debounce := none }).2
      = some sampleTelemetry.toPartial :=
  ⟨rfl, rfl, rfl⟩

/-- C2 amended: a surviving submission first cancels any pending debounce
timer and arms a fresh one set debounceDelay after the current moment —
so the flush always fires a fixed delay after the most recent surviving
submission — while the queue is still unchanged; only after skew
resolution completes is the record appended to the tail of the queue. -/
theorem enqueue_arms_timer_then_appends (config : ClientConfig)
    (raw : Telemetry) (now : Nat) (s : ClientState) (td : Option Int)
    (h : (prepareTelemetry config raw).isEmpty = false) :
    (sendTelemetryPhase1 config raw now s).1
      = { s with debounce := some (now + debounceDelay) } ∧
    (sendTelemetryPhase1 config raw now s).1.queue = s.queue ∧
    (sendTelemetryPhase1 config raw now s).2
      = some (prepareTelemetry config raw) ∧
    (sendTelemetryRun config raw (Except.ok td) now s).1.queue
      = s.queue ++ [mkTelemetryBody (prepareTelemetry config raw) td] := by
  have hp1 : sendTelemetryPhase1 config raw now s
      = ({ s with debounce := some (now + debounceDelay) },
         some (prepareTelemetry config raw)) := by
    simp [sendTelemetryPhase1, h]
  have hrun : sendTelemetryRun config raw (Except.ok td) now s
      = (sendTelemetryPhase2 (prepareTelemetry config raw) td
          { s with debounce := some (now + debounceDelay) }, Except.ok ()) := by
    unfold sendTelemetryRun
    rw [hp1]
  refine ⟨?_, ?_, ?_, ?_⟩
  · rw [hp1]
  · rw [hp1]
  · rw [hp1]
  · rw [hrun]
    simp [sendTelemetryPhase2]

/-- Witness for the C2 amended theorem at a concrete submission against a
client that already has a pending timer. -/
theorem enqueue_arms_timer_then_appends_witness :
    (sendTelemetryPhase1 (ClientConfig.bool true) sampleTelemetry 5
        { queue := [], debounce := some 3 }).1
      = { queue := [], debounce := some (5 + debounceDelay) } ∧
    (sendTelemetryPhase1 (ClientConfig.bool true) sampleTelemetry 5
        { queue := [], debounce := some 3 }).1.queue
      = ClientState.queue { queue := [], debounce := some 3 } ∧
    (sendTelemetryPhase1 (ClientConfig.bool true) sampleTelemetry 5
        { queue := [], debounce := some 3 }).2
      = some (prepareTelemetry (ClientConfig.bool true) sampleTelemetry) ∧
    (sendTelemetryRun (ClientConfig.bool true) sampleTelemetry
        (Except.ok (some 7)) 5 { queue := [], debounce := some 3 }).1.queue
      = ClientState.queue { queue := [], debounce := some 3 } ++
          [mkTelemetryBody
            (prepareTelemetry (ClientConfig.bool true) sampleTelemetry)
            (some 7)] :=
  enqueue_arms_timer_then_appends (ClientConfig.bool true) sampleTelemetry 5
    { queue := [], debounce := some 3 } (some 7) (by decide)

/-- C6: any number of calls arriving before the first time-source
response causes exactly one outbound request — the first call installs
the shared in-flight request, and every later call suspends on that same
request without changing the state or issuing a new fetch. -/
theorem skew_concurrent_single_fetch (n m : Nat) (h1 : 1 ≤ n) (h2 : 1 ≤ m) :
    (startCalls n SkewState.init).fetchCount = 1 ∧
    getTimeDifferenceStart (startCalls m SkewState.init)
      = (SkewStartResult.awaiting, startCalls m SkewState.init) := by
  have key : ∀ k, 1 ≤ k → startCalls k SkewState.init =
      { timeDifference := none, requestInFlight := true, fetchCount := 1 } := by
    intro k hk
    cases k with
    | zero => exact absurd hk (by decide)
    | succ j =>
      show startCalls j (getTimeDifferenceStart SkewState.init).2 = _
      have hstep : (getTimeDifferenceStart SkewState.init).2 =
          { timeDifference := none, requestInFlight := true, fetchCount := 1 } := rfl
      rw [hstep]
      exact startCalls_stable j 1
  refine ⟨?_, ?_⟩
  · rw [key n h1]
  · rw [key m h2]
    rfl

/-- Witness for the C6 theorem: three calls before the first response
issue exactly one fetch, and a third call after two suspends on the
shared request. -/
theorem skew_concurrent_single_fetch_witness :
    (startCalls 3 SkewState.init).fetchCount = 1 ∧
    getTimeDifferenceStart (startCalls 2 SkewState.init)
      = (SkewStartResult.awaiting, startCalls 2 SkewState.init) :=
  skew_concurrent_single_fetch 3 2 (by decide) (by decide)

/-- C7 as stated fails: two callers pending on the same successful time
request resume with different local clock readings; the first caches
offset 10 seconds, but the second does not receive that cached value —
it recomputes with its own reading and returns (and caches) 8. -/
theorem skew_pending_callers_differ :
    (getTimeDifferenceResume (some 10000) 0
        (getTimeDifferenceStart SkewState.init).2).1 = some 10 ∧
    (getTimeDifferenceResume (some 10000) 0
        (getTimeDifferenceStart SkewState.init).2).2.timeDifference
      = some (some 10) ∧
    (getTimeDifferenceResume (some 10000) 1500
        (getTimeDifferenceResume (some 10000) 0
          (getTimeDifferenceStart SkewState.init).2).2).1 = some 8 ∧
    some (8 : Int) ≠ some (10 : Int) :=
  ⟨by decide, by decide, by decide, by decide⟩

/-- C7 amended: on success each resuming call computes
floor((remoteTime - its own localTime) / 1000) in whole seconds, returns
it and stores it in the cache, overwriting any earlier value; every call
made once the cache is set receives the cached value with the state, and
hence the count of outbound requests, unchanged; and the value returned
by skew resolution is attached verbatim as the timeDifference field of
the record sendTelemetry appends. -/
theorem skew_offset_formula_cached_attached (r now : Int) (s s2 : SkewState)
    (v : Option Int) (prepared : PartialTelemetry) (td : Option Int)
    (cs : ClientState) (h : s2.timeDifference = some v) :
    getTimeDifferenceResume (some r) now s
      = (some ((r - now).fdiv 1000),
         { s with timeDifference := some (some ((r - now).fdiv 1000)) }) ∧
    getTimeDifferenceStart s2 = (SkewStartResult.cached v, s2) ∧
    (sendTelemetryPhase2 prepared td cs).queue
      = cs.queue ++ [mkTelemetryBody prepared td] ∧
    (mkTelemetryBody prepared td).timeDifference = td := by
  refine ⟨rfl, ?_, rfl, rfl⟩
  simp [getTimeDifferenceStart, h]

/-- Witness for the C7 amended theorem at concrete times, a concrete
resolved state and a concrete record. -/
theorem skew_offset_formula_cached_attached_witness :
    getTimeDifferenceResume (some 10000) 1500 SkewState.init
      = (some ((10000 - 1500 : Int).fdiv 1000),
         { SkewState.init with
            timeDifference := some (some ((10000 - 1500 : Int).fdiv 1000)) }) ∧
    getTimeDifferenceStart
        { timeDifference := some (some 8), requestInFlight := true, fetchCount := 1 }
      = (SkewStartResult.cached (some 8),
         { timeDifference := some (some 8), requestInFlight := true,
           fetchCount := 1 }) ∧
    (sendTelemetryPhase2 sampleTelemetry.toPartial (some 8)
        { queue := [], debounce := some 10 }).queue
      = ClientState.queue { queue := [], debounce := some 10 } ++
          [mkTelemetryBody sampleTelemetry.toPartial (some 8)] ∧
    (mkTelemetryBody sampleTelemetry.toPartial (some 8)).timeDifference
      = some 8 :=
  skew_offset_formula_cached_attached 10000 1500 SkewState.init
    { timeDifference := some (some 8), requestInFlight := true, fetchCount := 1 }
    (some 8) sampleTelemetry.toPartial (some 8)
    { queue := [], debounce := some 10 } rfl

/-- C8 as stated fails: a well-formed JSON response whose datetime field
is missing or unparseable settles the shared promise to a truthy
Invalid Date, and the resumption caches NaN — not the explicit null
sentinel — which a subsequent call then receives from the cache. -/
theorem skew_malformed_response_caches_nan :
    (getTimeDifferenceResumeFull ServerTime.invalidDate 500
        (getTimeDifferenceStartFull SkewStateFull.init).2).1
      = some SkewValue.nan ∧
    (getTimeDifferenceResumeFull ServerTime.invalidDate 500
        (getTimeDifferenceStartFull SkewStateFull.init).2).2.timeDifference
      = some (some SkewValue.nan) ∧
    getTimeDifferenceStartFull
        (getTimeDifferenceResumeFull ServerTime.invalidDate 500
          (getTimeDifferenceStartFull SkewStateFull.init).2).2
      = (SkewStartResultFull.cached (some SkewValue.nan),
         (getTimeDifferenceResumeFull ServerTime.invalidDate 500
           (getTimeDifferenceStartFull SkewStateFull.init).2).2) ∧
    some SkewValue.nan ≠ (none : Option SkewValue) :=
  ⟨rfl, rfl, rfl, by decide⟩

/-- C8 amended: on failure the value the shared promise settled to is
cached permanently — the null of the catch for a network error or a
body that fails JSON parsing, but NaN for a valid-JSON response whose
datetime is missing or unparseable, since the truthy Invalid Date
reaches the arithmetic — and every subsequent call returns the cached
value immediately with the state, and hence the outbound request
count, unchanged. -/
theorem skew_failure_paths_cached (now : Int) (s sb s2 : SkewStateFull)
    (v : Option SkewValue) (h : s2.timeDifference = some v) :
    getTimeDifferenceResumeFull ServerTime.null now s
      = (none, { s with timeDifference := some none }) ∧
    getTimeDifferenceResumeFull ServerTime.invalidDate now sb
      = (some SkewValue.nan,
         { sb with timeDifference := some (some SkewValue.nan) }) ∧
    getTimeDifferenceStartFull s2 = (SkewStartResultFull.cached v, s2) ∧
    (getTimeDifferenceStartFull s2).2.fetchCount = s2.fetchCount := by
  have h2 : getTimeDifferenceStartFull s2
      = (SkewStartResultFull.cached v, s2) := by
    simp [getTimeDifferenceStartFull, h]
  exact ⟨rfl, rfl, h2, by rw [h2]⟩

/-- Witness for the C8 amended theorem at concrete failed resolutions:
one settled to null by the catch, one settled to an Invalid Date, and a
subsequent call reading the NaN cache without a new request. -/
theorem skew_failure_paths_cached_witness :
    getTimeDifferenceResumeFull ServerTime.null 500 SkewStateFull.init
      = (none, { SkewStateFull.init with timeDifference := some none }) ∧
    getTimeDifferenceResumeFull ServerTime.invalidDate 500
        { timeDifference := none, requestInFlight := true, fetchCount := 1 }
      = (some SkewValue.nan,
         { timeDifference := some (some SkewValue.nan),
           requestInFlight := true, fetchCount := 1 }) ∧
    getTimeDifferenceStartFull
        { timeDifference := some (some SkewValue.nan),
          requestInFlight := true, fetchCount := 1 }
      = (SkewStartResultFull.cached (some SkewValue.nan),
         { timeDifference := some (some SkewValue.nan),
           requestInFlight := true, fetchCount := 1 }) ∧
    (getTimeDifferenceStartFull
        { timeDifference := some (some SkewValue.nan),
          requestInFlight := true, fetchCount := 1 }).2.fetchCount
      = SkewStateFull.fetchCount
          { timeDifference := some (some SkewValue.nan),
            requestInFlight := true, fetchCount := 1 } :=
  skew_failure_paths_cached 500 SkewStateFull.init
    { timeDifference := none, requestInFlight := true, fetchCount := 1 }
    { timeDifference := some (some SkewValue.nan),
      requestInFlight := true, fetchCount := 1 }
    (some SkewValue.nan) rfl

/-- C9: the boundary catch of sendTelemetry and of sendBulk maps every
outcome, including a rejected skew resolution or a rejected fetch, to a
normal return, so neither ever propagates an exception or a rejection to
the caller; a surviving submission whose skew resolution rejects is
silently discarded — the record is never enqueued — and the rejection is
real inside the try body before the catch swallows it. -/
theorem sendTelemetry_sendBulk_never_throw (config : ClientConfig)
    (raw : Telemetry) (skew : Except String (Option Int)) (now : Nat)
    (s sb : ClientState) (outcome : Except String Unit) (e : String)
    (h : (prepareTelemetry config raw).isEmpty = false) :
    (sendTelemetry config raw skew now s).2 = Except.ok () ∧
    (sendBulk outcome sb).2 = Except.ok () ∧
    (sendTelemetry config raw (Except.error e) now s).1.queue = s.queue ∧
    (sendTelemetryRun config raw (Except.error e) now s).2
      = Except.error e := by
  have hp1 : sendTelemetryPhase1 config raw now s
      = ({ s with debounce := some (now + debounceDelay) },
         some (prepareTelemetry config raw)) := by
    simp [sendTelemetryPhase1, h]
  have hrun : sendTelemetryRun config raw (Except.error e) now s
      = ({ s with debounce := some (now + debounceDelay) },
         Except.error e) := by
    unfold sendTelemetryRun
    rw [hp1]
  refine ⟨rfl, rfl, ?_, ?_⟩
  · simp [sendTelemetry, caught, hrun]
  · rw [hrun]

/-- Witness for the C9 theorem at a concrete surviving submission whose
skew resolution rejects. -/
theorem sendTelemetry_sendBulk_never_throw_witness :
    (sendTelemetry (ClientConfig.bool true) sampleTelemetry
        (Except.ok (some 1)) 0 { queue := [], debounce := none }).2
      = Except.ok () ∧
    (sendBulk (Except.error ("offline"))
        { queue := [sampleBody], debounce := none }).2 = Except.ok () ∧
    (sendTelemetry (ClientConfig.bool true) sampleTelemetry
        (Except.error ("dns failure")) 0
        { queue := [], debounce := none }).1.queue
      = ClientState.queue { queue := [], debounce := none } ∧
    (sendTelemetryRun (ClientConfig.bool true) sampleTelemetry
        (Except.error ("dns failure")) 0 { queue := [], debounce := none }).2
      = Except.error ("dns failure") :=
  sendTelemetry_sendBulk_never_throw (ClientConfig.bool true) sampleTelemetry
    (Except.ok (some 1)) 0 { queue := [], debounce := none }
    { queue := [sampleBody], debounce := none }
    (Except.error ("offline")) "dns failure" (by decide)

/-- C10: a record pushed while an upload awaits its response enters the
queue behind the already-dispatched snapshot, is absent from that
dispatched payload, and the clear performed when the upload resolves
removes it from the queue — the record is lost without having been part
of any dispatch. -/
theorem record_during_inflight_upload_lost (s : ClientState)
    (prepared : PartialTelemetry) (td : Option Int)
    (payload : List TelemetryBody) (h1 : s.queue ≠ [])
    (h2 : mkTelemetryBody prepared td ∉ s.queue)
    (h3 : sendBulkDispatch s = some payload) :
    payload = s.queue ∧
    mkTelemetryBody prepared td ∉ payload ∧
    mkTelemetryBody prepared td ∈ (sendTelemetryPhase2 prepared td s).queue ∧
    (sendBulkComplete (sendTelemetryPhase2 prepared td s)).queue = [] := by
  have hq : s.queue.isEmpty = false := by
    cases hqq : s.queue with
    | nil => exact absurd hqq h1
    | cons a l => rfl
  have hp : payload = s.queue := by
    rw [sendBulkDispatch, hq] at h3
    simpa using h3.symm
  refine ⟨hp, by rw [hp]; exact h2, ?_, rfl⟩
  simp [sendTelemetryPhase2]

/-- Witness for the C10 theorem: a fresh record pushed during an
in-flight upload of a one-record queue is dropped unseen. -/
theorem record_during_inflight_upload_lost_witness :
    [sampleBody] = ClientState.queue { queue := [sampleBody], debounce := none } ∧
    mkTelemetryBody sampleTelemetry.toPartial (some 5) ∉ [sampleBody] ∧
    mkTelemetryBody sampleTelemetry.toPartial (some 5) ∈
      (sendTelemetryPhase2 sampleTelemetry.toPartial (some 5)
        { queue := [sampleBody], debounce := none }).queue ∧
    (sendBulkComplete
        (sendTelemetryPhase2 sampleTelemetry.toPartial (some 5)
          { queue := [sampleBody], debounce := none })).queue = [] :=
  record_during_inflight_upload_lost { queue := [sampleBody], debounce := none }
    sampleTelemetry.toPartial (some 5) [sampleBody]
    (by decide) (by decide) rfl

end TC
